import Mathlib

/-
Verification of the parameter-validation and request-dispatch core of the
Elfa AI analytics dashboard (src/elfa_analytics.py).

The embedding models, per query branch of the script:
  * the JSON payload each branch builds with json.dumps (an ordered
    association list of key/value pairs, plus a serializer mimicking
    json.dumps with its default separators and ensure_ascii escaping);
  * the SearchByKeywords date-range check and limit clamping
    (lines 214-232 of the source);
  * the tool lookup `next((t for t in tools if t.name == name), None)`
    followed by either `run_async(tool._arun(payload))` or an error
    message (the pattern shared by all five branches).

A tool's coroutine is modelled as `String → Except String String`:
`Except.ok r` is a normal result (displayed with st.json), `Except.error e`
is a raised exception. The source wraps the invocation in no handler, so a
raised exception leaves the branch; the model records that outcome as the
`InvokeResult.raised` constructor.
-/

/-- JSON values that occur in the payloads of this program: integers,
strings and booleans. -/
inductive JVal
  | int (i : Int)
  | str (s : String)
  | bool (b : Bool)
  deriving DecidableEq, Repr

/-- The five query types offered by the selectbox. -/
inductive QuerySpec
  | smartMentions
  | topMentionsByTicker
  | searchByKeywords
  | trendingTokens
  | twitterStats
  deriving DecidableEq, Repr

/-- The validated field values each branch passes to json.dumps, in source
order. For searchByKeywords the limit is the value after clamping, since
the dict at lines 226-232 is built from `requested_limit`. -/
inductive QueryInput
  | smartMentions (limit offset : Int)
  | topMentionsByTicker (ticker time_window : String) (page page_size : Int)
      (include_account_details : Bool)
  | searchByKeywords (keywords : String) (from_timestamp to_timestamp limit : Int)
  | trendingTokens (time_window : String) (page page_size min_mentions : Int)
  | twitterStats (username : String)
  deriving DecidableEq, Repr

/-- Which query type a validated input belongs to. -/
def specOf : QueryInput → QuerySpec
  | .smartMentions _ _ => .smartMentions
  | .topMentionsByTicker _ _ _ _ _ => .topMentionsByTicker
  | .searchByKeywords _ _ _ _ => .searchByKeywords
  | .trendingTokens _ _ _ _ => .trendingTokens
  | .twitterStats _ => .twitterStats

/-- The tool-name string literal each branch looks up (lines 155, 184,
233, 260, 279 of the source). -/
def toolNameOf : QuerySpec → String
  | .smartMentions => "elfa_ai_get_smart_mentions"
  | .topMentionsByTicker => "elfa_ai_get_top_mentions_by_ticker"
  | .searchByKeywords => "elfa_ai_search_mentions_by_keywords"
  | .trendingTokens => "elfa_ai_get_trending_tokens"
  | .twitterStats => "elfa_ai_get_smart_twitter_account_stats"

/-- The st.error message each branch shows when the lookup returns None
(lines 160, 189, 238, 265, 284). -/
def notFoundMsgOf : QuerySpec → String
  | .smartMentions => "Smart Mentions tool not found."
  | .topMentionsByTicker => "Top Mentions tool not found."
  | .searchByKeywords => "Search Mentions tool not found."
  | .trendingTokens => "Trending Tokens tool not found."
  | .twitterStats => "Twitter Stats tool not found."

/-- The dict literal each branch hands to json.dumps, with keys in the
insertion order of the source (lines 154, 177-183, 226-232, 254-259, 278).
Python 3.7+ dicts preserve insertion order and json.dumps serializes in
that order. -/
def payloadOf : QueryInput → List (String × JVal)
  | .smartMentions limit offset =>
      [("limit", .int limit), ("offset", .int offset)]
  | .topMentionsByTicker ticker time_window page page_size include_account_details =>
      [("ticker", .str ticker), ("time_window", .str time_window),
       ("page", .int page), ("page_size", .int page_size),
       ("include_account_details", .bool include_account_details)]
  | .searchByKeywords keywords from_timestamp to_timestamp limit =>
      [("keywords", .str keywords), ("from_timestamp", .int from_timestamp),
       ("to_timestamp", .int to_timestamp), ("limit", .int limit),
       ("cursor", .str "")]
  | .trendingTokens time_window page page_size min_mentions =>
      [("time_window", .str time_window), ("page", .int page),
       ("page_size", .int page_size), ("min_mentions", .int min_mentions)]
  | .twitterStats username =>
      [("username", .str username)]

/-- One hexadecimal digit, lowercase, as json.dumps prints it. -/
def hexDigit (n : Nat) : Char :=
  if n < 10 then Char.ofNat (48 + n) else Char.ofNat (87 + n)

/-- Four-digit lowercase hexadecimal, as in a JSON \u escape. -/
def hex4 (n : Nat) : String :=
  String.mk [hexDigit (n / 4096 % 16), hexDigit (n / 256 % 16),
             hexDigit (n / 16 % 16), hexDigit (n % 16)]

/-- Escaping of one character exactly as json.dumps with its default
ensure_ascii=True does: printable ASCII other than quote and backslash is
kept, the usual two-character escapes are used for quote, backslash and
the five control characters that have them, everything else becomes \u
escapes (a surrogate pair beyond the BMP). -/
def jsonEscapeChar (c : Char) : String :=
  if c = '\\' then "\\\\"
  else if c = '\"' then "\\\""
  else if c = '\n' then "\\n"
  else if c = '\t' then "\\t"
  else if c = '\r' then "\\r"
  else if c.toNat = 8 then "\\b"
  else if c.toNat = 12 then "\\f"
  else if 32 ≤ c.toNat ∧ c.toNat ≤ 126 then String.mk [c]
  else if c.toNat < 65536 then "\\u" ++ hex4 c.toNat
  else "\\u" ++ hex4 (55296 + (c.toNat - 65536) / 1024) ++
       "\\u" ++ hex4 (56320 + (c.toNat - 65536) % 1024)

/-- json.dumps escaping of a whole string (without the surrounding
quotes). -/
def jsonEscape (s : String) : String :=
  String.join (s.toList.map jsonEscapeChar)

/-- Serialization of one JSON scalar as json.dumps prints it. -/
def JVal.dumps : JVal → String
  | .int i => toString i
  | .str s => "\"" ++ jsonEscape s ++ "\""
  | .bool b => if b then "true" else "false"

/-- Serialization of a JSON object from its ordered key/value pairs, with
the default json.dumps separators. -/
def dumpsObj (obj : List (String × JVal)) : String :=
  "\x7b" ++
    String.intercalate ", "
      (obj.map (fun kv => "\"" ++ jsonEscape kv.1 ++ "\": " ++ JVal.dumps kv.2)) ++
  "\x7d"

/-- A registered tool: a name and the coroutine run by run_async.
`Except.error e` models the coroutine raising exception e. -/
structure Tool where
  name : String
  arun : String → Except String String

/-- What a branch does after building its payload: the result is shown
with st.json, or an st.error message is shown, or an exception escapes the
branch uncaught. -/
inductive InvokeResult
  | shown (result : String)
  | errorShown (msg : String)
  | raised (exn : String)
  deriving DecidableEq, Repr

/-- The lookup-and-invoke pattern shared by all five branches:
`tool = next((t for t in tools if t.name == name), None)`, then
`run_async(tool._arun(payload))` if a tool was found, else
`st.error(notFoundMsg)`. The source wraps the run_async call in no
try/except, so a raised exception is returned as `.raised`, not converted
to an error message. -/
def invokeTool (tools : List Tool) (name payload notFoundMsg : String) : InvokeResult :=
  match tools.find? (fun t => t.name == name) with
  | some t =>
      match t.arun payload with
      | .ok r => .shown r
      | .error e => .raised e
  | none => .errorShown notFoundMsg

/-- Dispatch of a validated query: serialize its payload and run the
shared lookup-and-invoke pattern with the query type's tool name and
not-found message. -/
def runQuery (q : QueryInput) (tools : List Tool) : InvokeResult :=
  invokeTool tools (toolNameOf (specOf q)) (dumpsObj (payloadOf q))
    (notFoundMsgOf (specOf q))

/-- Limit clamping of the SearchByKeywords branch (lines 219-225): below
20 the limit becomes 20 with an st.info notice, above 30 it becomes 30
with an st.info notice, otherwise it is kept and no notice is emitted. -/
def clampWithNotice (L : Int) : Int × List String :=
  if L < 20 then (20, ["Limit below minimum; using 20."])
  else if L > 30 then (30, ["Limit above maximum; using 30."])
  else (L, [])

/-- Outcome of the SearchByKeywords validation step: either the hard
range error, or the notices emitted while clamping together with the
payload handed to json.dumps. -/
inductive SearchOutcome
  | rangeError
  | dispatch (notices : List String) (payload : List (String × JVal))
  deriving DecidableEq, Repr

/-- The notices carried by a search outcome (none on the error path). -/
def SearchOutcome.notices : SearchOutcome → List String
  | .rangeError => []
  | .dispatch n _ => n

/-- Lines 214-232 of the source: with one_day = 86400 and thirty_days =
30 * 86400 = 2592000, `if not (one_day <= (to_ts - from_ts) <=
thirty_days)` shows the range error; otherwise the limit is clamped and
the payload dict is built from the clamped limit, the timestamps and an
empty cursor. -/
def searchValidate (kw : String) (ft tt L : Int) : SearchOutcome :=
  if 86400 ≤ tt - ft ∧ tt - ft ≤ 2592000 then
    SearchOutcome.dispatch (clampWithNotice L).2
      (payloadOf (.searchByKeywords kw ft tt (clampWithNotice L).1))
  else .rangeError

/-- A branch step: a validation error shown with st.error, or the
invocation of the looked-up tool. -/
inductive StepResult
  | validationError (msg : String)
  | invoked (r : InvokeResult)
  deriving DecidableEq, Repr

/-- The whole SearchByKeywords handler after timestamps are computed:
validation, then on success serialization and the lookup-and-invoke
pattern, paired with the notices emitted along the way. -/
def searchBranch (kw : String) (ft tt L : Int) (tools : List Tool) :
    List String × StepResult :=
  match searchValidate kw ft tt L with
  | .rangeError =>
      ([], .validationError "Error: Date range must be between 1 and 30 days.")
  | .dispatch n p =>
      (n, .invoked (invokeTool tools "elfa_ai_search_mentions_by_keywords"
        (dumpsObj p) "Search Mentions tool not found."))

/-- The defaults of the Trending Tokens form widgets (lines 248-251):
time_window "24h", page 1, page_size 10, min_mentions 5. -/
def trendingTokensDefaults : QueryInput := .trendingTokens "24h" 1 10 5

/-- Tool names as the spec's section 4.2 table lists them, stated
independently of the code for comparison. -/
def specTable_toolName : QuerySpec → String
  | .smartMentions => "elfa_ai_get_smart_mentions"
  | .topMentionsByTicker => "elfa_ai_get_top_mentions_by_ticker"
  | .searchByKeywords => "elfa_ai_search_mentions_by_keywords"
  | .trendingTokens => "elfa_ai_get_trending_tokens"
  | .twitterStats => "elfa_ai_get_smart_twitter_account_stats"

/-- Payload field lists as the spec's section 4.2 table gives them. -/
def specTable_fields : QuerySpec → List String
  | .smartMentions => ["limit", "offset"]
  | .topMentionsByTicker =>
      ["ticker", "time_window", "page", "page_size", "include_account_details"]
  | .searchByKeywords =>
      ["keywords", "from_timestamp", "to_timestamp", "limit", "cursor"]
  | .trendingTokens => ["time_window", "page", "page_size", "min_mentions"]
  | .twitterStats => ["username"]

/-- In the SearchByKeywords payload the limit field holds exactly the
limit the payload was built from. -/
theorem lookup_search_limit (kw : String) (ft tt l : Int) :
    (payloadOf (.searchByKeywords kw ft tt l)).lookup "limit" = some (.int l) := rfl

/-- In the SearchByKeywords payload the cursor field is the empty
string. -/
theorem lookup_search_cursor (kw : String) (ft tt l : Int) :
    (payloadOf (.searchByKeywords kw ft tt l)).lookup "cursor" = some (.str "") := rfl

/-- The clamped limit as a conditional expression. -/
theorem clamp_fst (L : Int) :
    (clampWithNotice L).1 = if L < 20 then 20 else if L > 30 then 30 else L := by
  unfold clampWithNotice
  by_cases h1 : L < 20
  · rw [if_pos h1, if_pos h1]
  · rw [if_neg h1, if_neg h1]
    by_cases h2 : L > 30
    · rw [if_pos h2, if_pos h2]
    · rw [if_neg h2, if_neg h2]

/-- Clamping emits no notice exactly when the requested limit already
lies in the interval from 20 to 30. -/
theorem clamp_notices (L : Int) :
    (clampWithNotice L).2 = [] ↔ (20 ≤ L ∧ L ≤ 30) := by
  unfold clampWithNotice
  by_cases h1 : L < 20
  · rw [if_pos h1]
    constructor
    · intro h
      simp at h
    · intro h
      exfalso
      omega
  · rw [if_neg h1]
    by_cases h2 : L > 30
    · rw [if_pos h2]
      constructor
      · intro h
        simp at h
      · intro h
        exfalso
        omega
    · rw [if_neg h2]
      simp
      omega

/-- Reduction of the validation step when the date range is accepted. -/
theorem searchValidate_pos (kw : String) (ft tt L : Int)
    (hr : 86400 ≤ tt - ft ∧ tt - ft ≤ 2592000) :
    searchValidate kw ft tt L =
      .dispatch (clampWithNotice L).2
        (payloadOf (.searchByKeywords kw ft tt (clampWithNotice L).1)) := by
  unfold searchValidate
  rw [if_pos hr]

/-- Reduction of the validation step when the date range is violated. -/
theorem searchValidate_neg (kw : String) (ft tt L : Int)
    (hr : ¬ (86400 ≤ tt - ft ∧ tt - ft ≤ 2592000)) :
    searchValidate kw ft tt L = .rangeError := by
  unfold searchValidate
  rw [if_neg hr]

/-- C1: the SearchByKeywords request reaches tool invocation if and only
if 86400 ≤ to_ts - from_ts ≤ 2592000; when the bound is violated the
branch shows the hard validation error about the date range and does not
invoke any tool. -/
theorem search_range_gate (kw : String) (ft tt L : Int) (tools : List Tool) :
    ((∃ r, (searchBranch kw ft tt L tools).2 = .invoked r) ↔
      (86400 ≤ tt - ft ∧ tt - ft ≤ 2592000)) ∧
    (¬ (86400 ≤ tt - ft ∧ tt - ft ≤ 2592000) →
      searchBranch kw ft tt L tools =
        ([], .validationError "Error: Date range must be between 1 and 30 days.")) := by
  by_cases hr : 86400 ≤ tt - ft ∧ tt - ft ≤ 2592000
  · refine ⟨⟨fun _ => hr, fun _ => ?_⟩, fun hc => absurd hr hc⟩
    refine ⟨invokeTool tools "elfa_ai_search_mentions_by_keywords"
      (dumpsObj (payloadOf (.searchByKeywords kw ft tt (clampWithNotice L).1)))
      "Search Mentions tool not found.", ?_⟩
    unfold searchBranch
    rw [searchValidate_pos kw ft tt L hr]
  · refine ⟨⟨?_, fun hc => absurd hc hr⟩, fun _ => ?_⟩
    · rintro ⟨r, hrr⟩
      unfold searchBranch at hrr
      rw [searchValidate_neg kw ft tt L hr] at hrr
      exact absurd hrr (by simp)
    · unfold searchBranch
      rw [searchValidate_neg kw ft tt L hr]

/-- C1 witness: a same-day range (difference 0) is rejected with the
range error and nothing is dispatched. -/
theorem search_range_gate_witness :
    searchBranch "btc" 0 0 5 [] =
      ([], .validationError "Error: Date range must be between 1 and 30 days.") :=
  (search_range_gate "btc" 0 0 5 []).2 (by decide)

/-- C2: for a requested limit L ≥ 1 and an accepted date range, the
limit placed in the payload is 20 when L < 20, 30 when L > 30 and L
otherwise, and a notice is absent exactly when 20 ≤ L ≤ 30; the request
still proceeds to dispatch. -/
theorem search_limit_clamp (kw : String) (ft tt L : Int) (_hL : 1 ≤ L)
    (hr : 86400 ≤ tt - ft ∧ tt - ft ≤ 2592000) :
    ∃ n p, searchValidate kw ft tt L = .dispatch n p ∧
      p.lookup "limit" = some (.int (if L < 20 then 20 else if L > 30 then 30 else L)) ∧
      (n = [] ↔ (20 ≤ L ∧ L ≤ 30)) := by
  refine ⟨(clampWithNotice L).2,
    payloadOf (.searchByKeywords kw ft tt (clampWithNotice L).1), ?_, ?_, ?_⟩
  · exact searchValidate_pos kw ft tt L hr
  · rw [lookup_search_limit, clamp_fst]
  · exact clamp_notices L

/-- C2 witness: at limit 5 with an exactly-one-day range the clamped
limit 20 lands in the payload and a notice is emitted. -/
theorem search_limit_clamp_witness :
    (1 : Int) ≤ 5 ∧
    ∃ n p, searchValidate "btc" 0 86400 5 = .dispatch n p ∧
      p.lookup "limit" =
        some (.int (if (5 : Int) < 20 then 20 else if (5 : Int) > 30 then 30 else 5)) ∧
      (n = [] ↔ (20 ≤ (5 : Int) ∧ (5 : Int) ≤ 30)) :=
  ⟨by decide, search_limit_clamp "btc" 0 86400 5 (by decide) (by decide)⟩

/-- C3: dispatch uses exactly the tool names of the section 4.2 table,
every payload carries exactly the listed fields in order, and the
SmartMentions query with limit 5 and offset 0 yields exactly the payload
with limit 5 and offset 0, dispatched to elfa_ai_get_smart_mentions. -/
theorem dispatch_table_exact (s : QuerySpec) (q : QueryInput) :
    toolNameOf s = specTable_toolName s ∧
    (payloadOf q).map Prod.fst = specTable_fields (specOf q) ∧
    payloadOf (.smartMentions 5 0) = [("limit", .int 5), ("offset", .int 0)] ∧
    toolNameOf (specOf (.smartMentions 5 0)) = "elfa_ai_get_smart_mentions" := by
  refine ⟨?_, ?_, rfl, rfl⟩
  · cases s <;> rfl
  · cases q <;> rfl

/-- C4 counterexample: it is false that an exception raised by a found
tool is always converted into a user-visible error message; with a
registered smart-mentions tool whose coroutine raises, the exception
leaves the branch as a raised fault. -/
theorem exception_caught_counterexample :
    ¬ ∀ (q : QueryInput) (tools : List Tool),
        (∃ t, tools.find? (fun x => x.name == toolNameOf (specOf q)) = some t) →
        ∀ e, runQuery q tools ≠ .raised e := by
  intro h
  exact h (.smartMentions 5 0)
    [⟨"elfa_ai_get_smart_mentions", fun _ => Except.error "ConnectionError"⟩]
    ⟨_, rfl⟩ "ConnectionError" rfl

/-- C4 amended: an exception raised by the external collaborator during
tool invocation is NOT caught by this layer for any query type: whenever
the looked-up tool's coroutine raises e, the branch result is that
uncaught exception, not an error message. -/
theorem raise_propagates (q : QueryInput) (tools : List Tool) (t : Tool) (e : String)
    (hf : tools.find? (fun x => x.name == toolNameOf (specOf q)) = some t)
    (he : t.arun (dumpsObj (payloadOf q)) = Except.error e) :
    runQuery q tools = .raised e := by
  unfold runQuery invokeTool
  simp only [hf, he]

/-- C4 witness: the amended claim at a concrete registry whose single
smart-mentions tool raises a connection error. -/
theorem raise_propagates_witness :
    runQuery (.smartMentions 5 0)
      [⟨"elfa_ai_get_smart_mentions", fun _ => Except.error "ConnectionError"⟩] =
      .raised "ConnectionError" :=
  raise_propagates (.smartMentions 5 0)
    [⟨"elfa_ai_get_smart_mentions", fun _ => Except.error "ConnectionError"⟩]
    ⟨"elfa_ai_get_smart_mentions", fun _ => Except.error "ConnectionError"⟩
    "ConnectionError" rfl rfl

/-- C5: when no registered tool bears the required tool name, the branch
shows that query type's tool-not-found error message; no tool is invoked
and no fault is raised. -/
theorem tool_not_found (q : QueryInput) (tools : List Tool)
    (h : ∀ t ∈ tools, t.name ≠ toolNameOf (specOf q)) :
    runQuery q tools = .errorShown (notFoundMsgOf (specOf q)) := by
  unfold runQuery invokeTool
  have hn : tools.find? (fun t => t.name == toolNameOf (specOf q)) = none := by
    rw [List.find?_eq_none]
    intro t ht
    simpa using h t ht
  rw [hn]

/-- C5 witness: a registry holding one unrelated tool yields the
Smart Mentions not-found message. -/
theorem tool_not_found_witness :
    runQuery (.smartMentions 5 0) [⟨"other_tool", fun s => Except.ok s⟩] =
      .errorShown "Smart Mentions tool not found." :=
  tool_not_found (.smartMentions 5 0) [⟨"other_tool", fun s => Except.ok s⟩]
    (by
      intro t ht
      rw [List.mem_singleton] at ht
      rw [ht]
      decide)

/-- C6: every payload the SearchByKeywords validation step dispatches
carries the cursor field, and its value is the empty string. -/
theorem search_cursor_fresh (kw : String) (ft tt L : Int) (n : List String)
    (p : List (String × JVal)) (h : searchValidate kw ft tt L = .dispatch n p) :
    p.lookup "cursor" = some (.str "") := by
  by_cases hr : 86400 ≤ tt - ft ∧ tt - ft ≤ 2592000
  · rw [searchValidate_pos kw ft tt L hr] at h
    have hp : payloadOf (.searchByKeywords kw ft tt (clampWithNotice L).1) = p := by
      injection h
    rw [← hp]
    exact lookup_search_cursor kw ft tt (clampWithNotice L).1
  · rw [searchValidate_neg kw ft tt L hr] at h
    exact absurd h (by simp)

/-- C6 witness: the concrete accepted search at limit 25 over one day
carries an empty cursor in its payload. -/
theorem search_cursor_fresh_witness :
    List.lookup "cursor"
      [("keywords", JVal.str "btc"), ("from_timestamp", JVal.int 0),
       ("to_timestamp", JVal.int 86400), ("limit", JVal.int 25),
       ("cursor", JVal.str "")] = some (.str "") :=
  search_cursor_fresh "btc" 0 86400 25 []
    [("keywords", JVal.str "btc"), ("from_timestamp", JVal.int 0),
     ("to_timestamp", JVal.int 86400), ("limit", JVal.int 25),
     ("cursor", JVal.str "")] (by decide)

/-- C7: the TrendingTokens query at the form defaults (time_window "24h",
page 1, page_size 10, min_mentions 5) yields exactly the documented
payload, dispatched to elfa_ai_get_trending_tokens. -/
theorem trending_defaults_payload :
    payloadOf trendingTokensDefaults =
      [("time_window", .str "24h"), ("page", .int 1), ("page_size", .int 10),
       ("min_mentions", .int 5)] ∧
    toolNameOf (specOf trendingTokensDefaults) = "elfa_ai_get_trending_tokens" :=
  ⟨rfl, rfl⟩

/-- C8: the TwitterStats branch performs no validation: every username,
the empty string included, flows unchanged into the single-field payload
and the branch always proceeds to the lookup-and-invoke step. -/
theorem twitter_stats_passthrough (u : String) (tools : List Tool) :
    payloadOf (.twitterStats u) = [("username", .str u)] ∧
    payloadOf (.twitterStats "") = [("username", .str "")] ∧
    runQuery (.twitterStats u) tools =
      invokeTool tools "elfa_ai_get_smart_twitter_account_stats"
        (dumpsObj [("username", .str u)]) "Twitter Stats tool not found." :=
  ⟨rfl, rfl, rfl⟩

/-- C9: when the date-range check fails, the validation outcome is the
bare range error: clamping never ran and no notice was emitted. -/
theorem range_error_atomic (kw : String) (ft tt L : Int)
    (h : ¬ (86400 ≤ tt - ft ∧ tt - ft ≤ 2592000)) :
    searchValidate kw ft tt L = .rangeError ∧
    (searchValidate kw ft tt L).notices = [] := by
  have he := searchValidate_neg kw ft tt L h
  refine ⟨he, ?_⟩
  rw [he]
  rfl

/-- C9 witness: the same-day range with the clampable limit 5 produces
the bare range error and no notices. -/
theorem range_error_atomic_witness :
    searchValidate "btc" 0 0 5 = .rangeError ∧
    (searchValidate "btc" 0 0 5).notices = [] :=
  range_error_atomic "btc" 0 0 5 (by decide)

/-- C10: payload construction is deterministic: the payload keys, in
order, are a fixed function of the query type alone (independent of the
field values), and identical validated inputs serialize to the identical
JSON string. -/
theorem payload_key_order (q q2 : QueryInput) :
    (specOf q = specOf q2 →
      (payloadOf q).map Prod.fst = (payloadOf q2).map Prod.fst) ∧
    (q = q2 → dumpsObj (payloadOf q) = dumpsObj (payloadOf q2)) := by
  constructor
  · cases q <;> cases q2 <;> simp [specOf, payloadOf]
  · intro h
    rw [h]

/-- C10 witness: two TwitterStats payloads with different usernames have
the same key list. -/
theorem payload_key_order_witness :
    (payloadOf (.twitterStats "alice")).map Prod.fst =
      (payloadOf (.twitterStats "bob")).map Prod.fst :=
  (payload_key_order (.twitterStats "alice") (.twitterStats "bob")).1 rfl
